import Mathlib

/-!
Verification of the SpotAPI session store (spotapi/session.py).

The module persists credential records to a JSON file and retrieves them by
identifier.  We shallowly embed the four operations of SpotifySession
(setup, load, list_sessions, remove) over an explicit file state.

Modelling choices, traced from the source:
  - A stored record is a JSON object with an optional "identifier" string, an
    optional "password" string and an optional "cookies" object holding the
    two secrets sp_dc and sp_key.  Records reachable through the module's own
    writes always have all fields; hand-edited files may omit any of them,
    and the code probes them with dict.get, hence the Option fields.
  - The file on disk is either absent (none), present but not valid JSON
    (FileContent.invalidJson, making json.load raise JSONDecodeError), or a
    parsed array of record objects (FileContent.records).  Valid JSON that is
    not an array of objects is modelled separately by PyJson below, where the
    dynamic (TypeError / AttributeError) behaviour of the comprehension in
    setup matters.
  - The Client Factory collaborator (Login.from_cookies together with the
    Config argument) is an opaque function from the matched record to either
    a client or an error; errors of the collaborator propagate unchanged.
  - Errors are structured values: SessionError.notFound carries the resolved
    path (the FileNotFoundError message names the path and tells the caller
    to run setup first), SessionError.lookupFailed carries the identifier and
    the enumerated available identifiers (the KeyError message of load),
    SessionError.removeLookupFailed carries only the identifier (the KeyError
    message of remove), and SessionError.parseError stands for a propagated
    json.JSONDecodeError.
  - Python str.strip is modelled by String.trim (trimming ASCII whitespace on
    both ends); the difference on exotic Unicode whitespace is immaterial to
    every claim, which only uses that the stored secrets are the trimmed
    inputs.
-/

namespace SpotapiSession

/-- Python str.strip on the secret tokens: trim whitespace at both ends. -/
def strip (s : String) : String := s.trim

/-- The nested "cookies" object of a stored record. -/
structure Cookies where
  sp_dc : Option String
  sp_key : Option String
deriving DecidableEq, Repr

/-- One credential record of the session file: a JSON object probed with
dict.get, so every field may be absent. -/
structure Record where
  identifier : Option String
  password : Option String
  cookies : Option Cookies
deriving DecidableEq, Repr

/-- Parsed state of an existing session file: either json.load fails
(invalid JSON) or the file is an array of record objects. -/
inductive FileContent where
  | invalidJson
  | records (rs : List Record)
deriving DecidableEq, Repr

/-- State of the session file on disk; none means the file does not exist. -/
abbrev FileState := Option FileContent

/-- The records of a file state, empty when the file is missing or does not
parse. -/
def recordsOf : FileState → List Record
  | some (.records rs) => rs
  | _ => []

/-- Structured errors raised by the session-store operations. -/
inductive SessionError where
  | notFound (path : String)
  | lookupFailed (identifier : String) (available : List (Option String))
  | removeLookupFailed (identifier : String)
  | parseError
  | factoryError
deriving DecidableEq, Repr

/-- The record written by setup: identifier, empty password, and the two
stripped cookie secrets. -/
def newRecord (sp_dc sp_key identifier : String) : Record :=
  ⟨some identifier, some "", some ⟨some (strip sp_dc), some (strip sp_key)⟩⟩

/-- The comprehension of setup: drop every record whose identifier field
equals the given identifier (a record with the field absent is kept, since
None is not equal to a string). -/
def removeSameIdentifier (identifier : String) (rs : List Record) : List Record :=
  rs.filter (fun s => !(s.identifier == some identifier))

/-- The existing sessions setup merges with: empty when the file is missing
or json.load raises (the except branch), otherwise the parsed records with
the saved identifier removed. -/
def existingSessions (identifier : String) (file : FileState) : List Record :=
  match file with
  | none => []
  | some .invalidJson => []
  | some (.records rs) => removeSameIdentifier identifier rs

/-- SpotifySession.load over a file state.  The factory argument stands for
the external Login.from_cookies collaborator (with its Config); its failures
propagate unchanged. -/
def load {C : Type} (factory : Record → Except SessionError C)
    (identifier path : String) (file : FileState) : Except SessionError C :=
  match file with
  | none => .error (.notFound path)
  | some .invalidJson => .error .parseError
  | some (.records sessions) =>
    match sessions.find? (fun s => s.identifier == some identifier) with
    | none => .error (.lookupFailed identifier (sessions.map (fun s => s.identifier)))
    | some m => factory m

/-- Everything setup produces: the rewritten file, the confirmation message
printed right after the write, and the value returned (the result of load). -/
structure SetupResult (C : Type) where
  fileAfter : FileContent
  message : String
  result : Except SessionError C
deriving Repr

/-- SpotifySession.setup over a file state: strip the secrets, merge the new
record after the surviving existing sessions, rewrite the file, print the
confirmation, then return the result of load on the rewritten file. -/
def setup {C : Type} (factory : Record → Except SessionError C)
    (sp_dc sp_key identifier path : String) (file : FileState) : SetupResult C :=
  let merged := existingSessions identifier file ++ [newRecord sp_dc sp_key identifier]
  ⟨ .records merged
  , "Session " ++ identifier ++ " saved to: " ++ path
  , load factory identifier path (some (.records merged)) ⟩

/-- SpotifySession.list_sessions: empty list when the file is missing; the
JSONDecodeError of json.load propagates when the file is invalid; otherwise
each record's identifier in file order, with the placeholder marker for a
record missing the field (dict.get with default). -/
def list_sessions (file : FileState) : Except SessionError (List String) :=
  match file with
  | none => .ok []
  | some .invalidJson => .error .parseError
  | some (.records sessions) =>
    .ok (sessions.map (fun s => s.identifier.getD "?"))

/-- SpotifySession.remove over a file state: returns the file state after
the call together with the outcome.  The file is rewritten only on success;
every error is raised before the write. -/
def remove (identifier path : String) (file : FileState) :
    FileState × Except SessionError Unit :=
  match file with
  | none => (file, .error (.notFound path))
  | some .invalidJson => (file, .error .parseError)
  | some (.records sessions) =>
    let new_sessions := removeSameIdentifier identifier sessions
    if new_sessions.length = sessions.length then
      (file, .error (.removeLookupFailed identifier))
    else
      (some (.records new_sessions), .ok ())

/-!
The dynamic layer for setup on files that parse as JSON but are not an array
of record objects.  The comprehension in setup iterates the loaded value and
calls dict.get on every element; only json.JSONDecodeError and IOError are
caught, so a TypeError (iterating a non-iterable) or an AttributeError
(calling .get on a non-dict) raised there escapes from setup before any
write happens.
-/

/-- A parsed JSON value, as json.load produces it. -/
inductive PyJson where
  | null
  | bool (b : Bool)
  | num (n : Int)
  | str (s : String)
  | arr (elems : List PyJson)
  | obj (fields : List (String × PyJson))

/-- Uncaught Python exceptions escaping the merge comprehension of setup. -/
inductive PyError where
  | typeError
  | attributeError
deriving DecidableEq, Repr

/-- Iterating a loaded JSON value in Python: an array yields its elements, a
dict yields its keys, a string yields its one-character substrings, and the
remaining values raise TypeError. -/
def pyIterate : PyJson → Except PyError (List PyJson)
  | .arr elems => .ok elems
  | .obj fields => .ok (fields.map (fun kv => .str kv.1))
  | .str s => .ok (s.toList.map (fun c => .str (String.singleton c)))
  | _ => .error .typeError

/-- Python v.get(key): a lookup on a dict, an AttributeError on any other
value. -/
def pyGet (v : PyJson) (key : String) : Except PyError (Option PyJson) :=
  match v with
  | .obj fields => .ok ((fields.find? (fun kv => kv.1 == key)).map (fun kv => kv.2))
  | _ => .error .attributeError

/-- The merge comprehension of setup over raw JSON elements: keep every
element whose identifier lookup does not yield exactly the saved identifier
(None or a non-string value compares unequal to a Python string); the first
element that is not a dict raises. -/
def filterSameIdentifierRaw (identifier : String) :
    List PyJson → Except PyError (List PyJson)
  | [] => .ok []
  | s :: rest => do
    let idv ← pyGet s "identifier"
    let rest' ← filterSameIdentifierRaw identifier rest
    match idv with
    | some (.str x) => if x = identifier then .ok rest' else .ok (s :: rest')
    | _ => .ok (s :: rest')

/-- The JSON object setup writes for the new record. -/
def newRecordRaw (sp_dc sp_key identifier : String) : PyJson :=
  .obj [ ("identifier", .str identifier)
       , ("password", .str "")
       , ("cookies", .obj [ ("sp_dc", .str (strip sp_dc))
                          , ("sp_key", .str (strip sp_key)) ]) ]

/-- Pre-existing raw content of the session file for the dynamic layer:
either json.load raises JSONDecodeError (caught by setup) or it yields a
JSON value. -/
inductive RawFile where
  | invalidJson
  | json (v : PyJson)

/-- The write phase of setup over a raw pre-existing file: the array written
to disk, or the uncaught exception if the merge comprehension raises (in
which case nothing is written). -/
def setupRawWrite (sp_dc sp_key identifier : String) (file : Option RawFile) :
    Except PyError (List PyJson) := do
  let existing ←
    match file with
    | none => pure []
    | some .invalidJson => pure []
    | some (.json v) => do filterSameIdentifierRaw identifier (← pyIterate v)
  pure (existing ++ [newRecordRaw sp_dc sp_key identifier])

/-- A factory standing for a Login.from_cookies that always succeeds and
keeps the record it was given, used for concrete instantiations. -/
def idFactory : Record → Except SessionError Record := fun r => .ok r

/-- A hand-edited record with every field absent. -/
def noIdentifierRecord : Record := ⟨none, none, none⟩

/-! Helper lemmas about the merge filter. -/

theorem mem_removeSameIdentifier {identifier : String} {rs : List Record}
    {r : Record} (h : r ∈ removeSameIdentifier identifier rs) :
    r ∈ rs ∧ (r.identifier == some identifier) = false := by
  rw [removeSameIdentifier, List.mem_filter] at h
  exact ⟨h.1, by simpa using h.2⟩

theorem mem_existingSessions {identifier : String} {file : FileState}
    {r : Record} (h : r ∈ existingSessions identifier file) :
    r ∈ recordsOf file ∧ (r.identifier == some identifier) = false := by
  cases file with
  | none => cases h
  | some c =>
    cases c with
    | invalidJson => cases h
    | records rs => exact mem_removeSameIdentifier h

theorem find?_existingSessions (identifier : String) (file : FileState) :
    (existingSessions identifier file).find?
      (fun s => s.identifier == some identifier) = none := by
  rw [List.find?_eq_none]
  intro x hx
  simp [(mem_existingSessions hx).2]

theorem find?_merged (sp_dc sp_key identifier : String)
    (file : FileState) :
    (existingSessions identifier file ++ [newRecord sp_dc sp_key identifier]).find?
      (fun s => s.identifier == some identifier)
      = some (newRecord sp_dc sp_key identifier) := by
  rw [List.find?_append, find?_existingSessions, Option.none_or]
  simp [newRecord]

/-- C1: for every identifier, secrets, path and pre-existing file state,
setup returns exactly the result of load on the same identifier and the file
it has just written, and that load invokes the Client Factory on exactly the
newly saved record, whose identifier is the given one and whose cookies hold
the two stripped secrets (together with the always-empty password field that
the file format prescribes), returning the factory's result. -/
theorem setup_returns_load_of_new_record {C : Type}
    (factory : Record → Except SessionError C)
    (a b id p : String) (file : FileState) :
    (setup factory a b id p file).result
        = load factory id p (some (setup factory a b id p file).fileAfter) ∧
    (setup factory a b id p file).result = factory (newRecord a b id) := by
  refine ⟨rfl, ?_⟩
  simp only [setup, load, find?_merged]

/-- C2 counterexample: the claim does not hold for every file that fails to
parse as the expected JSON array of objects.  The content [1] is valid JSON
but not an array of objects; only json.JSONDecodeError and IOError are
caught, so the merge comprehension of setup raises an uncaught
AttributeError (the int 1 has no attribute get) instead of treating the
existing set as empty. -/
theorem setup_malformed_counterexample :
    setupRawWrite "a" "b" "default" (some (.json (.arr [.num 1])))
      = .error .attributeError := rfl

/-- C2 amended: for every pre-existing file whose contents fail to parse as
JSON (json.load raises JSONDecodeError), save never raises an error: it
treats the existing set as empty and the resulting file contains only the
newly saved record.  A file that parses as JSON but is not an array of
objects may instead raise from the merge comprehension. -/
theorem setup_invalid_json_writes_new_record_only {C : Type}
    (factory : Record → Except SessionError C) (a b id p : String) :
    setupRawWrite a b id (some .invalidJson) = .ok [newRecordRaw a b id] ∧
    (setup factory a b id p (some .invalidJson)).fileAfter
      = .records [newRecord a b id] :=
  ⟨rfl, rfl⟩

/-- The file written by the first save of the C3 counterexample: the initial
file holds one hand-edited record missing the identifier field, and the
placeholder string is saved as an identifier. -/
def cexFileOnce : FileContent :=
  (setup idFactory "a1" "b1" "?" "p" (some (.records [noIdentifierRecord]))).fileAfter

/-- The file written by the second save of the C3 counterexample. -/
def cexFileTwice : FileContent :=
  (setup idFactory "a2" "b2" "?" "p" (some cexFileOnce)).fileAfter

/-- C3 counterexample: the claim fails for the identifier equal to the
placeholder marker.  Over a file holding a record that lacks the identifier
field, saving the identifier equal to the marker twice leaves exactly one
record for it, but list reports that string twice, because the no-identifier
record is also rendered as the placeholder. -/
theorem setup_twice_list_counterexample :
    ((recordsOf (some cexFileTwice)).filter
        (fun r => r.identifier == some "?")).length = 1 ∧
    list_sessions (some cexFileTwice) = .ok ["?", "?"] ∧
    (["?", "?"] : List String).count "?" = 2 := by
  refine ⟨rfl, rfl, by decide⟩

theorem removeSameIdentifier_existingSessions (id : String) (file : FileState) :
    removeSameIdentifier id (existingSessions id file)
      = existingSessions id file := by
  refine List.filter_eq_self.mpr ?_
  intro r hr
  simp [(mem_existingSessions hr).2]

theorem filter_match_existingSessions (id : String) (file : FileState) :
    (existingSessions id file).filter (fun r => r.identifier == some id)
      = [] := by
  refine List.filter_eq_nil_iff.mpr ?_
  intro r hr
  simp [(mem_existingSessions hr).2]

/-- C3 amended: over every file state, saving the same identifier twice with
possibly different secrets leaves exactly one record for that identifier,
namely the most recent one, appended at the end of the array; and list
reports the identifier exactly once, provided the identifier is not the
placeholder marker or no pre-existing record lacks the identifier field
(records lacking the field are listed as the marker as well). -/
theorem setup_twice_replaces {C : Type}
    (factory : Record → Except SessionError C)
    (a1 b1 a2 b2 id p : String) (file : FileState)
    (h : id ≠ "?" ∨ ∀ r ∈ recordsOf file, r.identifier ≠ none) :
    ∃ rs,
      (setup factory a2 b2 id p
          (some (setup factory a1 b1 id p file).fileAfter)).fileAfter
        = .records rs ∧
      rs.filter (fun r => r.identifier == some id) = [newRecord a2 b2 id] ∧
      rs.getLast? = some (newRecord a2 b2 id) ∧
      ∃ l, list_sessions (some (.records rs)) = .ok l ∧ l.count id = 1 := by
  refine ⟨existingSessions id file ++ [newRecord a2 b2 id], ?_, ?_, ?_, ?_⟩
  · show FileContent.records
        (existingSessions id
            (some (.records (existingSessions id file ++ [newRecord a1 b1 id])))
          ++ [newRecord a2 b2 id]) = _
    show FileContent.records
        (removeSameIdentifier id (existingSessions id file ++ [newRecord a1 b1 id])
          ++ [newRecord a2 b2 id]) = _
    rw [removeSameIdentifier, List.filter_append,
      show List.filter (fun s => !(s.identifier == some id))
          (existingSessions id file) = existingSessions id file from
        removeSameIdentifier_existingSessions id file,
      show List.filter (fun s => !(s.identifier == some id))
          [newRecord a1 b1 id] = [] by simp [newRecord],
      List.append_nil]
  · rw [List.filter_append, filter_match_existingSessions]
    simp [newRecord]
  · exact List.getLast?_concat _
  · refine ⟨_, rfl, ?_⟩
    rw [List.map_append, List.count_append]
    have hid : (newRecord a2 b2 id).identifier.getD "?" = id := rfl
    have h0 :
        ((existingSessions id file).map (fun s => s.identifier.getD "?")).count id
          = 0 := by
      refine List.count_eq_zero.mpr ?_
      intro hmem
      obtain ⟨r, hr, hrid⟩ := List.mem_map.mp hmem
      have hne : r.identifier ≠ some id := by
        have := (mem_existingSessions hr).2
        intro he
        rw [he] at this
        simp at this
      cases hidr : r.identifier with
      | none =>
        rw [hidr] at hrid
        rcases h with h | h
        · exact h hrid.symm
        · exact h r (mem_existingSessions hr).1 hidr
      | some x =>
        rw [hidr] at hrid
        have hx : x = id := by simpa using hrid
        exact hne (by rw [hidr, hx])
    rw [h0]
    simp [hid]

theorem setup_twice_replaces_witness :
    ("a" : String) ≠ "?" ∧
    ∃ rs,
      (setup idFactory "s2" "k2" "a" "p"
          (some (setup idFactory "s1" "k1" "a" "p" none).fileAfter)).fileAfter
        = .records rs ∧
      rs.filter (fun r => r.identifier == some "a") = [newRecord "s2" "k2" "a"] ∧
      rs.getLast? = some (newRecord "s2" "k2" "a") ∧
      ∃ l, list_sessions (some (.records rs)) = .ok l ∧ l.count "a" = 1 :=
  ⟨by decide,
   setup_twice_replaces idFactory "s1" "k1" "s2" "k2" "a" "p" none
     (Or.inl (by decide))⟩

/-- C4: load fails with the not-found error carrying the expected path
whenever the session file does not exist (its message is rendered from that
path together with the hint to run setup first), and whenever the file
exists and parses but holds no record with the identifier it fails with the
lookup error whose available field enumerates the identifier of every record
currently in the file. -/
theorem load_error_spec {C : Type} (factory : Record → Except SessionError C)
    (id p : String) (rs : List Record) :
    load factory id p none = .error (.notFound p) ∧
    ((∀ r ∈ rs, r.identifier ≠ some id) →
      load factory id p (some (.records rs))
        = .error (.lookupFailed id (rs.map (fun r => r.identifier)))) := by
  refine ⟨rfl, fun h => ?_⟩
  have hfind : rs.find? (fun s => s.identifier == some id) = none := by
    rw [List.find?_eq_none]
    intro x hx
    simpa using h x hx
  simp [load, hfind]

theorem load_error_spec_witness :
    (∀ r ∈ [newRecord "x" "y" "b"], r.identifier ≠ some "a") ∧
    load idFactory "a" "p" (some (.records [newRecord "x" "y" "b"]))
      = .error (.lookupFailed "a" [some "b"]) :=
  ⟨by decide,
   (load_error_spec idFactory "a" "p" [newRecord "x" "y" "b"]).2 (by decide)⟩

/-- C5: remove fails with the not-found error when the file does not exist;
over an existing parsed file it fails with its lookup error exactly when no
record matches the identifier (the filtered record count equals the
original), in which case the file is unchanged, and otherwise it succeeds
and rewrites the file with exactly the records whose identifier does not
match. -/
theorem remove_spec (id p : String) (rs : List Record) :
    remove id p none = (none, .error (.notFound p)) ∧
    ((remove id p (some (.records rs))).2 = .error (.removeLookupFailed id)
        ↔ ∀ r ∈ rs, r.identifier ≠ some id) ∧
    ((∀ r ∈ rs, r.identifier ≠ some id) →
      remove id p (some (.records rs))
        = (some (.records rs), .error (.removeLookupFailed id))) ∧
    ((∃ r ∈ rs, r.identifier = some id) →
      remove id p (some (.records rs))
        = (some (.records (removeSameIdentifier id rs)), .ok ())) := by
  have hlen : ((removeSameIdentifier id rs).length = rs.length)
      ↔ ∀ r ∈ rs, r.identifier ≠ some id := by
    rw [removeSameIdentifier, List.filter_length_eq_length]
    simp
  refine ⟨rfl, ?_, ?_, ?_⟩
  · by_cases hc : (removeSameIdentifier id rs).length = rs.length
    · simp only [remove, if_pos hc]
      simpa using hlen.mp hc
    · simp only [remove, if_neg hc]
      constructor
      · intro h
        cases h
      · intro h
        exact absurd (hlen.mpr h) hc
  · intro h
    simp only [remove, if_pos (hlen.mpr h)]
  · rintro ⟨r, hr, hrid⟩
    have hc : ¬ (removeSameIdentifier id rs).length = rs.length := by
      intro hc
      exact (hlen.mp hc) r hr hrid
    simp only [remove, if_neg hc]

theorem remove_spec_witness :
    (∃ r ∈ [newRecord "x" "y" "b", newRecord "u" "v" "a"],
        r.identifier = some "a") ∧
    remove "a" "p"
        (some (.records [newRecord "x" "y" "b", newRecord "u" "v" "a"]))
      = (some (.records
          (removeSameIdentifier "a" [newRecord "x" "y" "b", newRecord "u" "v" "a"])),
         .ok ()) :=
  ⟨⟨newRecord "u" "v" "a", by simp, rfl⟩,
   (remove_spec "a" "p" [newRecord "x" "y" "b", newRecord "u" "v" "a"]).2.2.2
     ⟨newRecord "u" "v" "a", by simp, rfl⟩⟩

/-- C6: list_sessions yields the empty list (and no error) when the file
does not exist; over a parsed file it yields every record's identifier in
file order, with the placeholder marker for a record missing the field; in
particular, after saving identifiers a and then b, it yields exactly those
two identifiers in that order. -/
theorem list_sessions_spec {C : Type} (factory : Record → Except SessionError C)
    (a1 b1 a2 b2 p : String) (rs : List Record) :
    list_sessions none = .ok [] ∧
    list_sessions (some (.records rs))
      = .ok (rs.map (fun s => s.identifier.getD "?")) ∧
    list_sessions (some (setup factory a2 b2 "b" p
        (some (setup factory a1 b1 "a" p none).fileAfter)).fileAfter)
      = .ok ["a", "b"] := by
  refine ⟨rfl, rfl, ?_⟩
  simp [setup, list_sessions, existingSessions, removeSameIdentifier, newRecord]

/-- C7: saving one identifier never alters another identifier's records: the
sublist of records carrying any other identifier — each with its identifier,
password and both cookie secrets — is exactly the same before and after
setup. -/
theorem setup_preserves_other_identifier {C : Type}
    (factory : Record → Except SessionError C)
    (a b x y p : String) (rs : List Record) (h : x ≠ y) :
    (recordsOf (some (setup factory a b x p (some (.records rs))).fileAfter)).filter
        (fun r => r.identifier == some y)
      = rs.filter (fun r => r.identifier == some y) := by
  show ((removeSameIdentifier x rs ++ [newRecord a b x]).filter
      (fun r => r.identifier == some y)) = _
  rw [List.filter_append, removeSameIdentifier, List.filter_filter]
  have h1 : List.filter (fun r => r.identifier == some y) [newRecord a b x]
      = [] := by
    simp [newRecord, h]
  have h2 : rs.filter
        (fun a => (a.identifier == some y) && !(a.identifier == some x))
      = rs.filter (fun r => r.identifier == some y) := by
    refine List.filter_congr ?_
    intro r _
    cases hr : (r.identifier == some y) with
    | false => simp
    | true =>
      have : r.identifier = some y := by simpa using hr
      simp [this]
      exact fun he => h he.symm
  rw [h1, h2, List.append_nil]

theorem setup_preserves_other_identifier_witness :
    ("x" : String) ≠ "y" ∧
    (recordsOf (some (setup idFactory "s" "k" "x" "p"
          (some (.records [newRecord "dy" "ky" "y"]))).fileAfter)).filter
        (fun r => r.identifier == some "y")
      = [newRecord "dy" "ky" "y"].filter (fun r => r.identifier == some "y") :=
  ⟨by decide,
   setup_preserves_other_identifier idFactory "s" "k" "x" "y" "p"
     [newRecord "dy" "ky" "y"] (by decide)⟩

/-- C8: when the file contains several records with the same identifier
(as a hand-edited file may), load invokes the Client Factory on the first
matching record in file order and ignores the duplicates that follow. -/
theorem load_first_match {C : Type} (factory : Record → Except SessionError C)
    (id p : String) (pre post : List Record) (r : Record)
    (hpre : ∀ s ∈ pre, s.identifier ≠ some id) (hr : r.identifier = some id) :
    load factory id p (some (.records (pre ++ r :: post))) = factory r := by
  have h1 : pre.find? (fun s => s.identifier == some id) = none := by
    rw [List.find?_eq_none]
    intro x hx
    simpa using hpre x hx
  have hfind : (pre ++ r :: post).find? (fun s => s.identifier == some id)
      = some r := by
    rw [List.find?_append, h1, Option.none_or]
    exact List.find?_cons_of_pos _ (by simp [hr])
  simp [load, hfind]

theorem load_first_match_witness :
    (∀ s ∈ [newRecord "db" "kb" "b"], s.identifier ≠ some "a") ∧
    (newRecord "d1" "k1" "a").identifier = some "a" ∧
    load idFactory "a" "p"
        (some (.records ([newRecord "db" "kb" "b"]
          ++ newRecord "d1" "k1" "a" :: [newRecord "d2" "k2" "a"])))
      = .ok (newRecord "d1" "k1" "a") :=
  ⟨by decide, rfl,
   load_first_match idFactory "a" "p" [newRecord "db" "kb" "b"]
     [newRecord "d2" "k2" "a"] (newRecord "d1" "k1" "a") (by decide) rfl⟩

/-- C9: on an existing file whose contents are not valid JSON, list_sessions
propagates the parse error of json.load to the caller rather than returning
an empty sequence; the no-error guarantee covers only the missing-file
case, where the empty list is returned. -/
theorem list_sessions_invalid_json :
    list_sessions (some .invalidJson) = .error .parseError ∧
    list_sessions none = .ok [] :=
  ⟨rfl, rfl⟩

/-- A Client Factory that fails on every record, standing for a
Login.from_cookies that raises during client construction. -/
def failFactory : Record → Except SessionError Record :=
  fun _ => .error .factoryError

/-- C10: setup rewrites the file with the merged array and emits the
confirmation message naming the identifier and path before load and the
Client Factory run: both are fixed for every factory, and when the factory
fails on every record setup returns that failure while the written file
still ends with the newly saved record. -/
theorem setup_writes_before_factory {C : Type}
    (factory : Record → Except SessionError C)
    (a b id p : String) (file : FileState) (e : SessionError) :
    (setup factory a b id p file).fileAfter
        = .records (existingSessions id file ++ [newRecord a b id]) ∧
    (setup factory a b id p file).message
        = "Session " ++ id ++ " saved to: " ++ p ∧
    ((∀ r, factory r = .error e) →
      (setup factory a b id p file).result = .error e ∧
      (setup factory a b id p file).fileAfter
        = .records (existingSessions id file ++ [newRecord a b id])) := by
  refine ⟨rfl, rfl, fun hfail => ⟨?_, rfl⟩⟩
  show load factory id p
      (some (.records (existingSessions id file ++ [newRecord a b id])))
      = .error e
  rw [load, find?_merged]
  exact hfail _

theorem setup_writes_before_factory_witness :
    failFactory (newRecord "a" "b" "id") = .error .factoryError ∧
    (setup failFactory "a" "b" "id" "p" none).result = .error .factoryError ∧
    (setup failFactory "a" "b" "id" "p" none).fileAfter
      = .records (existingSessions "id" none ++ [newRecord "a" "b" "id"]) :=
  ⟨rfl,
   ((setup_writes_before_factory failFactory "a" "b" "id" "p" none
       .factoryError).2.2 (fun _ => rfl)).1,
   ((setup_writes_before_factory failFactory "a" "b" "id" "p" none
       .factoryError).2.2 (fun _ => rfl)).2⟩

end SpotapiSession
